import Mathlib

/-!
Verification development for the sparse variational Gaussian process (SVGP)
model of pyro.contrib.gp.models.svgp, together with the optimizer-state
round-trip exercised by tests/optim/test_optim.py.

Scalars are modelled as rationals.  Vectors are lists of rationals and
matrices are lists of rows.  The external tensor engine's square root
(used inside the Cholesky factorization) is modelled by an exact integer
square root on numerator and denominator; it is exact whenever the input
is the square of a rational, which is the regime the concrete test
instances below stay in.

The runtime pipeline (model, guide, forward) is embedded at the scalar
latent shape (latentShape = ()), so the variational mean is a vector of
length M and the variational scale factor is an M by M matrix.  The
construction-time initializer is embedded separately over shaped tensors
so that the latent-shape initialization of the parameters is captured in
full generality.
-/

namespace SVGPSpec

abbrev Vec := List ℚ

abbrev Mat := List (List ℚ)

abbrev KernelFn := Mat → Mat → Mat

/-- Dot product of two rational vectors (truncating to the shorter one). -/
def dotQ (xs ys : Vec) : ℚ :=
  (xs.zip ys).foldl (fun s p => s + p.1 * p.2) 0

/-- Column j of a matrix, reading missing entries as 0. -/
def colQ (A : Mat) (j : Nat) : Vec :=
  A.map (fun r => r.getD j 0)

/-- Width of a matrix: the length of its first row. -/
def widthQ (A : Mat) : Nat :=
  (A.headD []).length

/-- Transpose of a matrix whose rows all have the length of the first row. -/
def transposeQ (A : Mat) : Mat :=
  (List.range (widthQ A)).map (fun j => colQ A j)

/-- Matrix-vector product. -/
def matVecQ (A : Mat) (v : Vec) : Vec :=
  A.map (fun r => dotQ r v)

/-- Matrix-matrix product. -/
def matMulQ (A B : Mat) : Mat :=
  A.map (fun r => (List.range (widthQ B)).map (fun j => dotQ r (colQ B j)))

/-- Identity matrix of size M. -/
def eyeQ (M : Nat) : Mat :=
  (List.range M).map (fun i => (List.range M).map (fun j => if i = j then (1 : ℚ) else 0))

/-- Scalar multiple of a matrix. -/
def smulQ (c : ℚ) (A : Mat) : Mat :=
  A.map (fun r => r.map (fun x => c * x))

/-- Elementwise sum of two matrices. -/
def matAddQ (A B : Mat) : Mat :=
  (A.zip B).map (fun p => (p.1.zip p.2).map (fun q => q.1 + q.2))

/-- Elementwise difference of two matrices. -/
def matSubQ (A B : Mat) : Mat :=
  (A.zip B).map (fun p => (p.1.zip p.2).map (fun q => q.1 - q.2))

/-- Elementwise sum of two vectors. -/
def vecAddQ (a b : Vec) : Vec :=
  (a.zip b).map (fun p => p.1 + p.2)

/-- Elementwise difference of two vectors. -/
def vecSubQ (a b : Vec) : Vec :=
  (a.zip b).map (fun p => p.1 - p.2)

/-- Main diagonal of a matrix. -/
def diagQ (A : Mat) : Vec :=
  (List.range A.length).map (fun i => (A.getD i []).getD i 0)

/-- Per-column sum of squares of a matrix (the diagonal of Aᵗ·A). -/
def colSumSquaresQ (A : Mat) : Vec :=
  (List.range (widthQ A)).map (fun j =>
    (A.map (fun r => r.getD j 0 * r.getD j 0)).foldl (fun s x => s + x) 0)

/-- Largest k with k * k ≤ n, by structural linear search (kernel-reducible). -/
def natSqrtLin (n : Nat) : Nat :=
  (List.range (n + 2)).foldl (fun acc k => if k * k ≤ n then k else acc) 0

/-- Modelled from the spec: the square root supplied by the external tensor
engine inside the Cholesky factorization; exact on perfect-square rationals. -/
def ratSqrt (q : ℚ) : ℚ :=
  (natSqrtLin q.num.toNat : ℚ) / (natSqrtLin q.den : ℚ)

/-- Modelled from the spec: the Cholesky factorization used by the Generative
Model (the potrf call of the tensor engine, lower-triangular mode) and by the
Conditional-Distribution Engine.  Returns the lower-triangular factor, or none
(the NumericalError of the spec) when the matrix is not positive-definite. -/
def potrf (A : Mat) : Option Mat :=
  (List.range A.length).foldlM (fun L i =>
    let Ai := A.getD i []
    let row := (List.range i).foldl (fun row j =>
        let Lj := L.getD j []
        row ++ [(Ai.getD j 0 - dotQ row Lj) / Lj.getD j 0]) []
    let s := Ai.getD i 0 - dotQ row row
    if 0 < s then
      some (L ++ [row ++ [ratSqrt s] ++ List.replicate (A.length - i - 1) 0])
    else none) []

/-- Forward substitution solving L · w = b for lower-triangular L. -/
def trisolveVec (L : Mat) (b : Vec) : Vec :=
  (List.range L.length).foldl (fun w i =>
    let Li := L.getD i []
    w ++ [(b.getD i 0 - dotQ w Li) / Li.getD i 0]) []

/-- Forward substitution solving L · W = B columnwise for lower-triangular L. -/
def trisolveMat (L : Mat) (B : Mat) : Mat :=
  transposeQ ((transposeQ B).map (fun b => trisolveVec L b))

/-- Errors surfaced by the embedded operations: the NumericalError raised by a
failed Cholesky factorization and the ShapeError raised by input validation. -/
inductive GPError
  | numericalError
  | shapeError
deriving DecidableEq, Repr

/-- Predictive second moment: a full covariance matrix or a diagonal variance
vector, depending on the full_cov flag. -/
inductive CovOrVar
  | full (C : Mat)
  | diag (v : Vec)
deriving DecidableEq, Repr

/-- Modelled from the spec: pyro.contrib.gp.util.conditional, the
Conditional-Distribution Engine (section 4.1 of the spec), which is not under
src/.  Steps: optionally compute the Cholesky factor of
Kuu = k(Xu,Xu) + jitter·I (NumericalError on failure), solve
W = Luu⁻¹ · Kuf, mean = Wᵗ · (Luu⁻¹ · u_loc), base covariance
Kff - Wᵗ·W (or its diagonal), variational correction from V = Luu⁻¹ · scaleU
(its spec step 6 correction concretized as Wᵗ·V·Vᵗ·W, the dimensionally
consistent reading), and in diagonal mode clip negative variances to exactly
zero. -/
def conditional (Xnew Xu : Mat) (kernel : KernelFn) (u_loc : Vec)
    (u_scale_tril : Mat) (Luu0 : Option Mat) (full_cov : Bool) (jitter : ℚ) :
    Except GPError (Vec × CovOrVar) :=
  let LuuOpt := match Luu0 with
    | some L => some L
    | none => potrf (matAddQ (kernel Xu Xu) (smulQ jitter (eyeQ Xu.length)))
  match LuuOpt with
  | none => .error .numericalError
  | some Luu =>
    let Kuf := kernel Xu Xnew
    let W := trisolveMat Luu Kuf
    let meanNew := matVecQ (transposeQ W) (trisolveVec Luu u_loc)
    let V := trisolveMat Luu u_scale_tril
    let U := matMulQ (transposeQ V) W
    if full_cov then
      let Kff := kernel Xnew Xnew
      let C := matAddQ (matSubQ Kff (matMulQ (transposeQ W) W))
        (matMulQ (transposeQ U) U)
      .ok (meanNew, .full C)
    else
      let base := vecSubQ (diagQ (kernel Xnew Xnew)) (colSumSquaresQ W)
      let v := vecAddQ base (colSumSquaresQ U)
      .ok (meanNew, .diag (v.map (fun x => max x 0)))

/-- Modelled from the spec: pyro.param_with_module_name, which derives the
sample-site name deterministically from the model's instance name. -/
def param_with_module_name (module param : String) : String :=
  module ++ "." ++ param

/-- Probabilistic sample site as registered by pyro.sample: a name together
with the location and lower-triangular scale factor of the multivariate
normal distribution declared at the site. -/
structure Site where
  name : String
  loc : Vec
  scale_tril : Mat
deriving DecidableEq, Repr

/-- Parameter-store slice owned by the model: the inducing points Xu, the
variational posterior mean u_loc and its scale factor u_scale_tril, as read
by get_param.  These are the values mutated externally by the optimizer. -/
structure Params where
  Xu : Mat
  u_loc : Vec
  u_scale_tril : Mat
deriving DecidableEq, Repr

/-- Observable mutable state of a SparseVariationalGP instance: the stored
parameters together with the _sample_latent flag set in the constructor. -/
structure SVGPState where
  params : Params
  sample_latent : Bool
deriving DecidableEq, Repr

/-- Immutable data of a SparseVariationalGP instance (lines 71-92 of
svgp.py): instance name, training inputs X, optional training outputs y, the
kernel collaborator, the likelihood collaborator and the jitter.  The
likelihood result type is abstract since the likelihood is a black box. -/
structure SVGP (α : Type) where
  name : String
  X : Mat
  y : Option Vec
  kernel : KernelFn
  likelihood : Vec → CovOrVar → Vec → α
  jitter : ℚ

/-- Covariance of the prior over inducing values as built on line 102 of
svgp.py: Kuu = kernel(Xu) + eye(M) * jitter with M = Xu.shape[0]. -/
def SVGP.Kuu (gp : SVGP α) (Xu : Mat) : Mat :=
  matAddQ (gp.kernel Xu Xu) (smulQ gp.jitter (eyeQ Xu.length))

/-- Result of SparseVariationalGP.model: the latent pair (f_loc, f_var) in
prior-predictive mode, or the likelihood collaborator's output. -/
inductive ModelResult (α : Type)
  | latent (f_loc : Vec) (f_var : CovOrVar)
  | lik (r : α)
deriving DecidableEq, Repr

/-- SparseVariationalGP.model (svgp.py lines 94-117).  Reads Xu, u_loc and
u_scale_tril from the parameter store, factorizes Kuu (raising the
NumericalError of potrf on failure), registers the prior sample site named
from the instance name (the drawn value is returned by the sample statement
and discarded, as in the source), computes the conditional at the training
inputs X with full_cov = false, and returns the latent pair when y is absent
or the likelihood output when y is present.  The draw argument is the oracle
supplying the value returned at each sample site.  The returned triple is
(result or error, registered sites, state at exit). -/
def SVGP.model (gp : SVGP α) (st : SVGPState) (draw : String → Vec) :
    Except GPError (ModelResult α) × List Site × SVGPState :=
  let Xu := st.params.Xu
  let u_loc := st.params.u_loc
  let u_scale_tril := st.params.u_scale_tril
  match potrf (gp.Kuu Xu) with
  | none => (.error .numericalError, [], st)
  | some Luu =>
    let zero_loc : Vec := List.replicate u_loc.length 0
    let u_name := param_with_module_name gp.name "u"
    let site : Site := { name := u_name, loc := zero_loc, scale_tril := Luu }
    let _u := draw u_name
    match conditional gp.X Xu gp.kernel u_loc u_scale_tril (some Luu) false
        gp.jitter with
    | .error e => (.error e, [site], st)
    | .ok (f_loc, f_var) =>
      match gp.y with
      | none => (.ok (.latent f_loc f_var), [site], st)
      | some yv => (.ok (.lik (gp.likelihood f_loc f_var yv)), [site], st)

/-- SparseVariationalGP.guide (svgp.py lines 119-131).  Reads Xu, u_loc and
u_scale_tril from the parameter store; when the _sample_latent flag is set it
registers the sample site (same name as the model's) carrying the learned
variational posterior, discarding the drawn value; it always returns the
quadruple (Xu, kernel handle, u_loc, u_scale_tril).  The returned triple is
(quadruple, registered sites, state at exit). -/
def SVGP.guide (gp : SVGP α) (st : SVGPState) (draw : String → Vec) :
    (Mat × KernelFn × Vec × Mat) × List Site × SVGPState :=
  let Xu := st.params.Xu
  let u_loc := st.params.u_loc
  let u_scale_tril := st.params.u_scale_tril
  let sites :=
    if st.sample_latent then
      let u_name := param_with_module_name gp.name "u"
      let _u := draw u_name
      [({ name := u_name, loc := u_loc, scale_tril := u_scale_tril } : Site)]
    else []
  ((Xu, gp.kernel, u_loc, u_scale_tril), sites, st)

/-- Modelled from the spec: GPModel._check_Xnew_shape (the base-class input
validation, not under src/), which validates that the feature dimension of
Xnew matches that of the training inputs and raises a ShapeError otherwise,
eagerly at the start of prediction. -/
def check_Xnew_shape (X Xnew : Mat) : Bool :=
  Xnew.all (fun r => r.length = widthQ X)

/-- SparseVariationalGP.forward (svgp.py lines 133-160).  Validates the shape
of Xnew, saves the _sample_latent flag and clears it, invokes the guide (thus
registering no sites and obtaining the learned parameters), restores the
flag, and delegates to the conditional with the requested full_cov mode (the
Cholesky factor is recomputed inside since it is not supplied).  The returned
triple is (result or error, registered sites, state at exit). -/
def SVGP.forward (gp : SVGP α) (st : SVGPState) (Xnew : Mat) (full_cov : Bool)
    (draw : String → Vec) :
    Except GPError (Vec × CovOrVar) × List Site × SVGPState :=
  if check_Xnew_shape gp.X Xnew then
    let tmp_sample_latent := st.sample_latent
    let st1 : SVGPState := { st with sample_latent := false }
    let res := gp.guide st1 draw
    let Xu := res.1.1
    let kernel := res.1.2.1
    let u_loc := res.1.2.2.1
    let u_scale_tril := res.1.2.2.2
    let sites := res.2.1
    let st2 := res.2.2
    let st3 : SVGPState := { st2 with sample_latent := tmp_sample_latent }
    (conditional Xnew Xu kernel u_loc u_scale_tril none full_cov gp.jitter,
      sites, st3)
  else (.error .shapeError, [], st)

/-! Helper lemmas for evaluating the embedded square root on the concrete
instances used by the witnesses. -/

theorem natSqrtLin_four : natSqrtLin 4 = 2 := by decide

theorem natSqrtLin_one : natSqrtLin 1 = 1 := by decide

theorem ratSqrt_four : ratSqrt (4 : ℚ) = 2 := by
  have h4 : ((4 : ℚ).num.toNat) = 4 := by decide
  have h1 : ((4 : ℚ).den) = 1 := by decide
  rw [ratSqrt, h4, h1, natSqrtLin_four, natSqrtLin_one]
  norm_num

/-! Concrete instances used by the witnesses: a kernel that is 3 on the
diagonal and 0 off it, a model with two training points and two inducing
points, jitter 1 (so Kuu is 4·I with an exactly representable Cholesky
factor 2·I), and a non-positive-semidefinite kernel exercising the
variance clipping. -/

def kTest : KernelFn := fun A B =>
  A.map (fun a => B.map (fun b => if a = b then (3 : ℚ) else 0))

def gpTest : SVGP Vec :=
  { name := "SVGP", X := [[0], [1]], y := none, kernel := kTest,
    likelihood := fun m _ _ => m, jitter := 1 }

def gpYTest : SVGP Vec :=
  { gpTest with y := some [5, 6], likelihood := fun _ _ yo => yo }

def stTest : SVGPState :=
  { params := { Xu := [[0], [2]], u_loc := [2, 4],
                u_scale_tril := [[1, 0], [0, 1]] },
    sample_latent := true }

def stTestOff : SVGPState :=
  { stTest with sample_latent := false }

def dTest : String → Vec := fun _ => []

def dTest2 : String → Vec := fun _ => [7]

def kEvil : KernelFn := fun A B =>
  A.map (fun a => B.map (fun b =>
    if a = b then (3 : ℚ)
    else if a = [0] ∧ b = [2] then 0
    else if a = [2] ∧ b = [0] then 0
    else 4))

/-- C7: for every public operation (model, guide, forward) there is no
partial-failure state: whether the call returns a result or an error, the
observable state at exit (the stored parameters Xu, u_loc, u_scale_tril and
the _sample_latent flag) equals the state before the call; in particular a
raising forward leaves everything, including _sample_latent, at its pre-call
value. -/
theorem model_guide_forward_no_partial_failure {α : Type} (gp : SVGP α)
    (st : SVGPState) (Xnew : Mat) (full_cov : Bool) (d : String → Vec) :
    (gp.model st d).2.2 = st ∧ (gp.guide st d).2.2 = st ∧
      (gp.forward st Xnew full_cov d).2.2 = st := by
  refine ⟨?_, rfl, ?_⟩
  · simp only [SVGP.model]
    split
    · rfl
    · split
      · rfl
      · split <;> rfl
  · simp only [SVGP.forward, SVGP.guide]
    split <;> rfl

/-- C4: the _sample_latent flag controls the guide's sample site.  When the
flag is set, the guide registers exactly one site carrying the learned
variational posterior (mean u_loc, scale factor u_scale_tril); when it is
cleared, the guide registers no site; in both cases the guide returns the
four learned objects (inducing points, kernel handle, posterior mean,
posterior scale factor). -/
theorem guide_flag_controls_sample_site {α : Type} (gp : SVGP α)
    (st1 st2 : SVGPState) (d1 d2 : String → Vec)
    (h1 : st1.sample_latent = true) (h2 : st2.sample_latent = false) :
    (gp.guide st1 d1).2.1 =
      [{ name := param_with_module_name gp.name "u",
         loc := st1.params.u_loc, scale_tril := st1.params.u_scale_tril }] ∧
    (gp.guide st2 d2).2.1 = [] ∧
    (gp.guide st1 d1).1 =
      (st1.params.Xu, gp.kernel, st1.params.u_loc, st1.params.u_scale_tril) ∧
    (gp.guide st2 d2).1 =
      (st2.params.Xu, gp.kernel, st2.params.u_loc, st2.params.u_scale_tril) := by
  refine ⟨?_, ?_, rfl, rfl⟩
  · simp [SVGP.guide, h1]
  · simp [SVGP.guide, h2]

/-- C4 witness: the guide of the concrete model registers the posterior site
when the flag is set and no site when it is cleared, returning the learned
quadruple in both cases. -/
theorem guide_flag_controls_sample_site_witness :
    stTest.sample_latent = true ∧ stTestOff.sample_latent = false ∧
    ((gpTest.guide stTest dTest).2.1 =
      [{ name := param_with_module_name gpTest.name "u",
         loc := stTest.params.u_loc,
         scale_tril := stTest.params.u_scale_tril }] ∧
     (gpTest.guide stTestOff dTest2).2.1 = [] ∧
     (gpTest.guide stTest dTest).1 =
       (stTest.params.Xu, gpTest.kernel, stTest.params.u_loc,
         stTest.params.u_scale_tril) ∧
     (gpTest.guide stTestOff dTest2).1 =
       (stTestOff.params.Xu, gpTest.kernel, stTestOff.params.u_loc,
         stTestOff.params.u_scale_tril)) :=
  ⟨rfl, rfl,
    guide_flag_controls_sample_site gpTest stTest stTestOff dTest dTest2 rfl rfl⟩

/-- C9: forward is deterministic: two calls with identical Xnew, identical
full_cov and identical stored parameter values return identical results, and
the result does not depend on the random-draw oracle (forward draws no random
values). -/
theorem forward_deterministic {α : Type} (gp : SVGP α) (st1 st2 : SVGPState)
    (Xnew : Mat) (full_cov : Bool) (d1 d2 : String → Vec)
    (h : st1.params = st2.params) :
    (gp.forward st1 Xnew full_cov d1).1 = (gp.forward st2 Xnew full_cov d2).1 := by
  cases st1 with
  | mk p1 b1 =>
    cases st2 with
    | mk p2 b2 =>
      simp only at h
      subst h
      simp only [SVGP.forward, SVGP.guide]
      split <;> rfl

/-- C9 witness: two forward calls on the concrete model, one from a state
with the sampling flag set and one with it cleared and a different draw
oracle, agree on the returned prediction. -/
theorem forward_deterministic_witness :
    stTest.params = stTestOff.params ∧
    (gpTest.forward stTest [[1]] false dTest).1 =
      (gpTest.forward stTestOff [[1]] false dTest2).1 :=
  ⟨rfl, forward_deterministic gpTest stTest stTestOff [[1]] false dTest dTest2 rfl⟩

/-- C6: forward is side-effect-free: on every normal return the stored
parameters Xu, u_loc and u_scale_tril are unchanged, no probabilistic sample
site has been registered, and the _sample_latent flag holds the same value as
before the call. -/
theorem forward_side_effect_free {α : Type} (gp : SVGP α) (st : SVGPState)
    (Xnew : Mat) (full_cov : Bool) (d : String → Vec)
    (v : Vec × CovOrVar) (sites : List Site) (st2 : SVGPState)
    (h : gp.forward st Xnew full_cov d = (.ok v, sites, st2)) :
    st2.params = st.params ∧ sites = [] ∧
      st2.sample_latent = st.sample_latent := by
  simp only [SVGP.forward, SVGP.guide] at h
  split at h
  · rw [Prod.mk.injEq, Prod.mk.injEq] at h
    obtain ⟨-, h2, h3⟩ := h
    subst h3
    exact ⟨rfl, h2.symm, rfl⟩
  · simp at h

/-- C6 witness: a successful forward call on the concrete model returns a
prediction while leaving the parameters and the flag unchanged and
registering no site. -/
theorem forward_side_effect_free_witness :
    gpTest.forward stTest [[1]] false dTest =
      (.ok ([0], .diag [3]), [], stTest) ∧
    (stTest.params = stTest.params ∧ ([] : List Site) = [] ∧
      stTest.sample_latent = stTest.sample_latent) := by
  have h : gpTest.forward stTest [[1]] false dTest =
      (.ok ([0], .diag [3]), [], stTest) := by
    norm_num [SVGP.forward, SVGP.guide, check_Xnew_shape, gpTest, stTest,
      dTest, kTest, potrf, conditional, dotQ, ratSqrt_four, List.range_succ,
      matAddQ, smulQ, eyeQ, trisolveMat, trisolveVec, transposeQ, widthQ,
      colQ, matVecQ, matMulQ, vecAddQ, vecSubQ, diagQ, colSumSquaresQ,
      param_with_module_name]
  exact ⟨h, forward_side_effect_free gpTest stTest [[1]] false dTest
    ([0], .diag [3]) [] stTest h⟩

/-- C1: the conditional at the training inputs X inside model() is computed
from the variational posterior parameters u_loc and u_scale_tril read from
the parameter store, in diagonal-only mode (full_cov = false), and not from
the value drawn at the prior sample site: the result of model() is
independent of the draw oracle, and equals the conditional applied to the
stored parameters. -/
theorem model_conditional_from_posterior_params {α : Type} (gp : SVGP α)
    (st : SVGPState) (d1 d2 : String → Vec) (Luu : Mat)
    (h : potrf (gp.Kuu st.params.Xu) = some Luu) :
    gp.model st d1 = gp.model st d2 ∧
    (gp.model st d1).1 =
      (conditional gp.X st.params.Xu gp.kernel st.params.u_loc
          st.params.u_scale_tril (some Luu) false gp.jitter).map
        (fun p => match gp.y with
          | none => ModelResult.latent p.1 p.2
          | some yv => ModelResult.lik (gp.likelihood p.1 p.2 yv)) := by
  constructor
  · rfl
  · simp only [SVGP.model, h]
    rcases hc : conditional gp.X st.params.Xu gp.kernel st.params.u_loc
        st.params.u_scale_tril (some Luu) false gp.jitter with e | p
    · simp [Except.map]
    · rcases hy : gp.y with _ | yv <;> simp [Except.map, hy]

/-- C1 witness: on the concrete model the result of model() is unchanged
under a different draw oracle and equals the conditional of the stored
posterior parameters in diagonal mode. -/
theorem model_conditional_from_posterior_params_witness :
    potrf (gpTest.Kuu stTest.params.Xu) = some [[2, 0], [0, 2]] ∧
    (gpTest.model stTest dTest = gpTest.model stTest dTest2 ∧
     (gpTest.model stTest dTest).1 =
       (conditional gpTest.X stTest.params.Xu gpTest.kernel
           stTest.params.u_loc stTest.params.u_scale_tril
           (some [[2, 0], [0, 2]]) false gpTest.jitter).map
         (fun p => match gpTest.y with
           | none => ModelResult.latent p.1 p.2
           | some yv => ModelResult.lik (gpTest.likelihood p.1 p.2 yv))) := by
  have h : potrf (gpTest.Kuu stTest.params.Xu) = some [[2, 0], [0, 2]] := by
    norm_num [SVGP.Kuu, gpTest, stTest, kTest, potrf, dotQ, ratSqrt_four,
      List.range_succ, matAddQ, smulQ, eyeQ]
  exact ⟨h, model_conditional_from_posterior_params gpTest stTest dTest
    dTest2 [[2, 0], [0, 2]] h⟩

/-- C2: every completed invocation of model() declares exactly one sample
site over the inducing values: a zero-mean multivariate normal represented by
the lower Cholesky factor Luu of Kuu = k(Xu, Xu) + jitter·I at the current
inducing points, whose name is derived deterministically from the instance
name and is identical to the name the guide uses. -/
theorem model_single_prior_site {α : Type} (gp : SVGP α) (st : SVGPState)
    (dm dg : String → Vec) (Luu : Mat)
    (h : potrf (gp.Kuu st.params.Xu) = some Luu)
    (hs : st.sample_latent = true) :
    (gp.model st dm).2.1 =
      [{ name := param_with_module_name gp.name "u",
         loc := List.replicate st.params.u_loc.length 0,
         scale_tril := Luu }] ∧
    ((gp.model st dm).2.1).map Site.name =
      ((gp.guide st dg).2.1).map Site.name := by
  have hm : (gp.model st dm).2.1 =
      [{ name := param_with_module_name gp.name "u",
         loc := List.replicate st.params.u_loc.length 0,
         scale_tril := Luu }] := by
    simp only [SVGP.model, h]
    rcases hc : conditional gp.X st.params.Xu gp.kernel st.params.u_loc
        st.params.u_scale_tril (some Luu) false gp.jitter with e | p
    · rfl
    · rcases hy : gp.y with _ | yv <;> rfl
  refine ⟨hm, ?_⟩
  rw [hm]
  simp [SVGP.guide, hs]

/-- C2 witness: the concrete model declares exactly the zero-mean prior site
with the Cholesky factor of Kuu, under the same name as the guide's site. -/
theorem model_single_prior_site_witness :
    potrf (gpTest.Kuu stTest.params.Xu) = some [[2, 0], [0, 2]] ∧
    stTest.sample_latent = true ∧
    ((gpTest.model stTest dTest).2.1 =
      [{ name := param_with_module_name gpTest.name "u",
         loc := List.replicate stTest.params.u_loc.length 0,
         scale_tril := [[2, 0], [0, 2]] }] ∧
     ((gpTest.model stTest dTest).2.1).map Site.name =
       ((gpTest.guide stTest dTest2).2.1).map Site.name) := by
  have h : potrf (gpTest.Kuu stTest.params.Xu) = some [[2, 0], [0, 2]] := by
    norm_num [SVGP.Kuu, gpTest, stTest, kTest, potrf, dotQ, ratSqrt_four,
      List.range_succ, matAddQ, smulQ, eyeQ]
  exact ⟨h, rfl, model_single_prior_site gpTest stTest dTest dTest2
    [[2, 0], [0, 2]] h rfl⟩

/-- C3: when the model was constructed without training outputs, model()
returns the latent pair (mean, variance) directly and never invokes the
likelihood collaborator (its result is unchanged under an arbitrary
replacement of the likelihood); when outputs are present, model() returns
the likelihood collaborator applied to (latent mean, latent variance, y). -/
theorem model_prior_predictive_mode {α : Type} (gpn gps : SVGP α)
    (stn sts : SVGPState) (d : String → Vec) (yv : Vec)
    (L1 L2 : Vec → CovOrVar → Vec → α) (Lun Lus : Mat)
    (hn : gpn.y = none) (hs : gps.y = some yv)
    (hcn : potrf (gpn.Kuu stn.params.Xu) = some Lun)
    (hcs : potrf (gps.Kuu sts.params.Xu) = some Lus) :
    ({ gpn with likelihood := L1 }).model stn d =
      ({ gpn with likelihood := L2 }).model stn d ∧
    (gpn.model stn d).1 =
      (conditional gpn.X stn.params.Xu gpn.kernel stn.params.u_loc
          stn.params.u_scale_tril (some Lun) false gpn.jitter).map
        (fun p => ModelResult.latent p.1 p.2) ∧
    (gps.model sts d).1 =
      (conditional gps.X sts.params.Xu gps.kernel sts.params.u_loc
          sts.params.u_scale_tril (some Lus) false gps.jitter).map
        (fun p => ModelResult.lik (gps.likelihood p.1 p.2 yv)) := by
  refine ⟨?_, ?_, ?_⟩
  · simp only [SVGP.model, SVGP.Kuu, hn]
  · simp only [SVGP.model, hcn]
    rcases hc : conditional gpn.X stn.params.Xu gpn.kernel stn.params.u_loc
        stn.params.u_scale_tril (some Lun) false gpn.jitter with e | p
    · simp [Except.map]
    · simp [Except.map, hn]
  · simp only [SVGP.model, hcs]
    rcases hc : conditional gps.X sts.params.Xu gps.kernel sts.params.u_loc
        sts.params.u_scale_tril (some Lus) false gps.jitter with e | p
    · simp [Except.map]
    · simp [Except.map, hs]

/-- C3 witness: the concrete model without outputs ignores the likelihood
and returns the latent pair; the concrete model with outputs returns the
likelihood of the latent pair and y. -/
theorem model_prior_predictive_mode_witness :
    gpTest.y = none ∧ gpYTest.y = some [5, 6] ∧
    potrf (gpTest.Kuu stTest.params.Xu) = some [[2, 0], [0, 2]] ∧
    potrf (gpYTest.Kuu stTest.params.Xu) = some [[2, 0], [0, 2]] ∧
    (({ gpTest with likelihood := fun m _ _ => m }).model stTest dTest =
       ({ gpTest with likelihood := fun _ _ yo => yo }).model stTest dTest ∧
     (gpTest.model stTest dTest).1 =
       (conditional gpTest.X stTest.params.Xu gpTest.kernel
           stTest.params.u_loc stTest.params.u_scale_tril
           (some [[2, 0], [0, 2]]) false gpTest.jitter).map
         (fun p => ModelResult.latent p.1 p.2) ∧
     (gpYTest.model stTest dTest).1 =
       (conditional gpYTest.X stTest.params.Xu gpYTest.kernel
           stTest.params.u_loc stTest.params.u_scale_tril
           (some [[2, 0], [0, 2]]) false gpYTest.jitter).map
         (fun p => ModelResult.lik (gpYTest.likelihood p.1 p.2 [5, 6]))) := by
  have hcn : potrf (gpTest.Kuu stTest.params.Xu) = some [[2, 0], [0, 2]] := by
    norm_num [SVGP.Kuu, gpTest, stTest, kTest, potrf, dotQ, ratSqrt_four,
      List.range_succ, matAddQ, smulQ, eyeQ]
  have hcs : potrf (gpYTest.Kuu stTest.params.Xu) = some [[2, 0], [0, 2]] := by
    norm_num [SVGP.Kuu, gpYTest, gpTest, stTest, kTest, potrf, dotQ,
      ratSqrt_four, List.range_succ, matAddQ, smulQ, eyeQ]
  exact ⟨rfl, rfl, hcn, hcs,
    model_prior_predictive_mode gpTest gpYTest stTest stTest dTest [5, 6]
      (fun m _ _ => m) (fun _ _ yo => yo) [[2, 0], [0, 2]] [[2, 0], [0, 2]]
      rfl rfl hcn hcs⟩

/-- Diagonal-mode output of the Conditional-Distribution Engine is the image
of an elementwise clip of negatives to exactly zero. -/
theorem conditional_diag_is_clipped (Xnew Xu : Mat) (kernel : KernelFn)
    (u_loc : Vec) (u_scale_tril : Mat) (Luu0 : Option Mat) (jitter : ℚ)
    (m : Vec) (cv : CovOrVar)
    (h : conditional Xnew Xu kernel u_loc u_scale_tril Luu0 false jitter =
      .ok (m, cv)) :
    ∃ pre : Vec, cv = .diag (pre.map (fun x => max x 0)) := by
  simp only [conditional] at h
  split at h
  · cases h
  · simp only [Bool.false_eq_true, if_false] at h
    cases h
    exact ⟨_, rfl⟩

/-- Elements of a list clipped at zero are non-negative. -/
theorem mem_clip_nonneg (pre : Vec) (x : ℚ)
    (hx : x ∈ pre.map (fun x => max x 0)) : 0 ≤ x := by
  obtain ⟨y, -, rfl⟩ := List.mem_map.1 hx
  exact le_max_right y 0

/-- C8: in diagonal mode every element of the predictive variance returned by
the Conditional-Distribution Engine, and hence by forward and by model()'s
latent variance, is non-negative, negative values having been clipped to
exactly zero. -/
theorem diag_variance_nonneg {α : Type} (Xnew Xu : Mat) (kernel : KernelFn)
    (u_loc : Vec) (u_scale_tril : Mat) (Luu0 : Option Mat) (jitter : ℚ)
    (m : Vec) (cv : CovOrVar)
    (gp gp2 : SVGP α) (st st2 : SVGPState) (Xnew2 : Mat) (d d2 : String → Vec)
    (m2 : Vec) (cv2 : CovOrVar) (ss ss2 : List Site) (st4 st5 : SVGPState)
    (fl : Vec) (fv : CovOrVar)
    (hc : conditional Xnew Xu kernel u_loc u_scale_tril Luu0 false jitter =
      .ok (m, cv))
    (hf : gp.forward st Xnew2 false d = (.ok (m2, cv2), ss, st4))
    (hm : gp2.model st2 d2 = (.ok (.latent fl fv), ss2, st5)) :
    (∃ pre : Vec, cv = .diag (pre.map (fun x => max x 0))) ∧
    (∀ v : Vec, cv = .diag v → ∀ x ∈ v, 0 ≤ x) ∧
    (∀ v : Vec, cv2 = .diag v → ∀ x ∈ v, 0 ≤ x) ∧
    (∃ v : Vec, cv2 = .diag v) ∧
    (∀ v : Vec, fv = .diag v → ∀ x ∈ v, 0 ≤ x) ∧
    (∃ v : Vec, fv = .diag v) := by
  obtain ⟨pre, hpre⟩ := conditional_diag_is_clipped _ _ _ _ _ _ _ _ _ hc
  have hf2 : ∃ pre2 : Vec, cv2 = .diag (pre2.map (fun x => max x 0)) := by
    simp only [SVGP.forward, SVGP.guide] at hf
    split at hf
    · rw [Prod.mk.injEq] at hf
      exact conditional_diag_is_clipped _ _ _ _ _ _ _ _ _ hf.1
    · simp at hf
  have hm2 : ∃ pre3 : Vec, fv = .diag (pre3.map (fun x => max x 0)) := by
    simp only [SVGP.model] at hm
    split at hm
    · simp at hm
    · rw [Prod.mk.injEq] at hm
      have hm1 := hm.1
      rcases hcm : conditional gp2.X st2.params.Xu gp2.kernel
          st2.params.u_loc st2.params.u_scale_tril _ false gp2.jitter
        with e | p
      · rw [hcm] at hm1
        cases hm1
      · rw [hcm] at hm1
        rcases hy : gp2.y with _ | yv <;> rw [hy] at hm1
        · cases hm1
          exact conditional_diag_is_clipped _ _ _ _ _ _ _ _ _ hcm
        · cases hm1
  obtain ⟨pre2, hpre2⟩ := hf2
  obtain ⟨pre3, hpre3⟩ := hm2
  refine ⟨⟨pre, hpre⟩, ?_, ?_, ⟨_, hpre2⟩, ?_, ⟨_, hpre3⟩⟩
  · intro v hv x hx
    rw [hpre] at hv
    cases hv
    exact mem_clip_nonneg pre x hx
  · intro v hv x hx
    rw [hpre2] at hv
    cases hv
    exact mem_clip_nonneg pre2 x hx
  · intro v hv x hx
    rw [hpre3] at hv
    cases hv
    exact mem_clip_nonneg pre3 x hx

/-- C8 witness: on a non-positive-semidefinite kernel the diagonal-mode
conditional clips the (negative) variance to exactly zero, and the concrete
forward and model calls return elementwise non-negative variances. -/
theorem diag_variance_nonneg_witness :
    conditional [[1]] [[0], [2]] kEvil [0, 0] [[0, 0], [0, 0]] none false 1 =
      .ok ([0], .diag [0]) ∧
    gpTest.forward stTest [[1]] false dTest =
      (.ok ([0], .diag [3]), [], stTest) ∧
    gpTest.model stTest dTest =
      (.ok (.latent [3/2, 0] (.diag [21/16, 3])),
       [{ name := "SVGP.u", loc := [0, 0], scale_tril := [[2, 0], [0, 2]] }],
       stTest) ∧
    ((∃ pre : Vec, CovOrVar.diag [0] = .diag (pre.map (fun x => max x 0))) ∧
     (∀ v : Vec, CovOrVar.diag [0] = .diag v → ∀ x ∈ v, 0 ≤ x) ∧
     (∀ v : Vec, CovOrVar.diag [3] = .diag v → ∀ x ∈ v, 0 ≤ x) ∧
     (∃ v : Vec, CovOrVar.diag [3] = .diag v) ∧
     (∀ v : Vec, CovOrVar.diag [21/16, 3] = .diag v → ∀ x ∈ v, 0 ≤ x) ∧
     (∃ v : Vec, CovOrVar.diag [21/16, 3] = .diag v)) := by
  have hc : conditional [[1]] [[0], [2]] kEvil [0, 0] [[0, 0], [0, 0]] none
      false 1 = .ok ([0], .diag [0]) := by
    norm_num [conditional, kEvil, potrf, dotQ, ratSqrt_four, List.range_succ,
      matAddQ, smulQ, eyeQ, trisolveMat, trisolveVec, transposeQ, widthQ,
      colQ, matVecQ, matMulQ, vecAddQ, vecSubQ, diagQ, colSumSquaresQ]
  have hf : gpTest.forward stTest [[1]] false dTest =
      (.ok ([0], .diag [3]), [], stTest) := by
    norm_num [SVGP.forward, SVGP.guide, check_Xnew_shape, gpTest, stTest,
      dTest, kTest, potrf, conditional, dotQ, ratSqrt_four, List.range_succ,
      matAddQ, smulQ, eyeQ, trisolveMat, trisolveVec, transposeQ, widthQ,
      colQ, matVecQ, matMulQ, vecAddQ, vecSubQ, diagQ, colSumSquaresQ,
      param_with_module_name]
  have hm : gpTest.model stTest dTest =
      (.ok (.latent [3/2, 0] (.diag [21/16, 3])),
       [{ name := "SVGP.u", loc := [0, 0], scale_tril := [[2, 0], [0, 2]] }],
       stTest) := by
    norm_num [SVGP.model, SVGP.Kuu, gpTest, stTest, dTest, kTest, potrf,
      conditional, dotQ, ratSqrt_four, List.range_succ, matAddQ, smulQ,
      eyeQ, trisolveMat, trisolveVec, transposeQ, widthQ, colQ, matVecQ,
      matMulQ, vecAddQ, vecSubQ, diagQ, colSumSquaresQ,
      param_with_module_name]
    decide
  exact ⟨hc, hf, hm,
    diag_variance_nonneg [[1]] [[0], [2]] kEvil [0, 0] [[0, 0], [0, 0]]
      none 1 [0] (.diag [0]) gpTest gpTest stTest stTest [[1]] dTest dTest
      [0] (.diag [3]) []
      [{ name := "SVGP.u", loc := [0, 0], scale_tril := [[2, 0], [0, 2]] }]
      stTest stTest [3/2, 0] (.diag [21/16, 3]) hc hf hm⟩

/-! Construction-time initializer (svgp.py lines 71-92), embedded over shaped
tensors so that the latent-shape dependence of the parameter initialization
is captured in full generality.  A tensor is a shape together with its
flattened values in row-major order. -/

/-- Shaped tensor: a shape together with flattened row-major values. -/
structure Tensor where
  shape : List Nat
  data : List ℚ
deriving DecidableEq, Repr

/-- Zero tensor of a given shape (the new_zeros call of the tensor engine). -/
def Tensor.zeros (shape : List Nat) : Tensor :=
  ⟨shape, List.replicate shape.prod 0⟩

/-- Identity matrix of size M as a tensor (the torch.eye call). -/
def Tensor.eye (M : Nat) : Tensor :=
  ⟨[M, M], (eyeQ M).flatten⟩

/-- Broadcasting expansion with fresh leading dimensions (the expand call of
the tensor engine applied to shape lead ++ t.shape): the values are repeated
along every new leading dimension. -/
def Tensor.expandLead (t : Tensor) (lead : List Nat) : Tensor :=
  ⟨lead ++ t.shape, (List.replicate lead.prod t.data).flatten⟩

/-- Modelled from the spec: registration of a caller-supplied tensor as a
learnable parameter (the torch.nn.Parameter wrapper); at the value level of
this embedding the stored parameter holds the caller's values. -/
def Parameter (t : Tensor) : Tensor := t

/-- State of a freshly constructed SparseVariationalGP: the registered
parameters, the resolved latent shape, and the _sample_latent flag. -/
structure SVGPInit where
  Xu : Tensor
  latent_shape : List Nat
  u_loc : Tensor
  u_scale_tril : Tensor
  sample_latent : Bool
deriving DecidableEq, Repr

/-- SparseVariationalGP constructor (svgp.py lines 71-92): registers Xu,
resolves the latent shape (the supplied one, or the batch shape of y, or
empty), initializes u_loc to zeros of shape latent_shape ++ [M] and
u_scale_tril to the M by M identity expanded to latent_shape ++ [M, M]
(with M the leading dimension of Xu), and sets the _sample_latent flag. -/
def initSVGP (Xu0 : Tensor) (y : Option Tensor)
    (latent_shape0 : Option (List Nat)) : SVGPInit :=
  let Xu := Parameter Xu0
  let y_batch_shape : List Nat :=
    match y with
    | some yv => yv.shape.dropLast
    | none => []
  let latent_shape := latent_shape0.getD y_batch_shape
  let M := Xu.shape.headD 0
  let u_loc_shape := latent_shape ++ [M]
  let u_loc := Parameter (Tensor.zeros u_loc_shape)
  let u_scale_tril := Parameter ((Tensor.eye M).expandLead latent_shape)
  { Xu := Xu, latent_shape := latent_shape, u_loc := u_loc,
    u_scale_tril := u_scale_tril, sample_latent := true }

/-- C5: at construction u_loc is the zero tensor of shape
latent_shape ++ [M], u_scale_tril is the M by M identity expanded to shape
latent_shape ++ [M, M], and the stored inducing-point parameter takes its
values from the caller-supplied initial tensor Xu. -/
theorem init_parameter_values (Xu0 : Tensor) (y : Option Tensor)
    (latent_shape0 : Option (List Nat)) :
    (initSVGP Xu0 y latent_shape0).u_loc =
      Tensor.zeros ((initSVGP Xu0 y latent_shape0).latent_shape ++
        [Xu0.shape.headD 0]) ∧
    (initSVGP Xu0 y latent_shape0).u_loc.shape =
      (initSVGP Xu0 y latent_shape0).latent_shape ++ [Xu0.shape.headD 0] ∧
    (initSVGP Xu0 y latent_shape0).u_scale_tril =
      (Tensor.eye (Xu0.shape.headD 0)).expandLead
        (initSVGP Xu0 y latent_shape0).latent_shape ∧
    (initSVGP Xu0 y latent_shape0).u_scale_tril.shape =
      (initSVGP Xu0 y latent_shape0).latent_shape ++
        [Xu0.shape.headD 0, Xu0.shape.headD 0] ∧
    (initSVGP Xu0 y latent_shape0).Xu = Xu0 :=
  ⟨rfl, rfl, rfl, rfl, rfl⟩

/-! Optimizer-state checkpoint round trip (tests/optim/test_optim.py).  The
optimizer itself (pyro.optim.Adam wrapping the tensor engine's Adam) and the
SVI driver are external collaborators not under src/. -/

/-- Modelled from the spec: the per-parameter optimizer state of the Adam
wrapper used by SVI (optimizer checkpointing is an out-of-scope collaborator
of the spec; its contract here is the one exercised by
tests/optim/test_optim.py): each named parameter carries a step counter. -/
structure AdamState where
  stepCount : String → Nat

/-- Modelled from the spec: a fresh Adam optimizer, with no per-parameter
state yet (all step counters zero). -/
def freshAdam : AdamState :=
  ⟨fun _ => 0⟩

/-- Modelled from the spec: one SVI optimization step over the parameters
named in ps, incrementing each of their step counters. -/
def sviStep (ps : List String) (s : AdamState) : AdamState :=
  ⟨fun p => if p ∈ ps then s.stepCount p + 1 else s.stepCount p⟩

/-- Saved optimizer-state file contents. -/
structure SavedFile where
  contents : String → Nat

/-- Modelled from the spec: saving the optimizer state to a file. -/
def adamSave (s : AdamState) : SavedFile :=
  ⟨s.stepCount⟩

/-- Modelled from the spec: loading a state file into an optimizer replaces
its state with the file's contents. -/
def adamLoad (f : SavedFile) (_old : AdamState) : AdamState :=
  ⟨f.contents⟩

/-- C10: after one SVI step with an Adam optimizer, saving its state and
loading it into a fresh optimizer, then taking one further SVI step with the
fresh optimizer, leaves the fresh optimizer's step count for any stepped
parameter equal to that of the original optimizer after two consecutive
steps (namely 2). -/
theorem adam_checkpoint_round_trip (ps : List String) (p : String)
    (hp : p ∈ ps) :
    (sviStep ps (adamLoad (adamSave (sviStep ps freshAdam))
        freshAdam)).stepCount p =
      (sviStep ps (sviStep ps freshAdam)).stepCount p ∧
    (sviStep ps (adamLoad (adamSave (sviStep ps freshAdam))
        freshAdam)).stepCount p = 2 := by
  simp [sviStep, adamLoad, adamSave, freshAdam, hp]

/-- C10 witness: the round trip for the loc_q parameter of the test, stepped
together with log_sig_q. -/
theorem adam_checkpoint_round_trip_witness :
    "loc_q" ∈ ["loc_q", "log_sig_q"] ∧
    ((sviStep ["loc_q", "log_sig_q"]
        (adamLoad (adamSave (sviStep ["loc_q", "log_sig_q"] freshAdam))
          freshAdam)).stepCount "loc_q" =
      (sviStep ["loc_q", "log_sig_q"]
        (sviStep ["loc_q", "log_sig_q"] freshAdam)).stepCount "loc_q" ∧
     (sviStep ["loc_q", "log_sig_q"]
        (adamLoad (adamSave (sviStep ["loc_q", "log_sig_q"] freshAdam))
          freshAdam)).stepCount "loc_q" = 2) :=
  ⟨by simp, adam_checkpoint_round_trip ["loc_q", "log_sig_q"] "loc_q"
    (by simp)⟩

end SVGPSpec
